import Mathlib

/-!
Shallow embedding of the email-intelligence pipeline (`src/main.py`) for
checking the natural-language specification against the code.

Modelling conventions:
* Python floats are modelled as exact rationals (`ℚ`).  All concrete inputs
  used in theorems keep a margin of at least 1/1000 from any decimal rounding
  boundary, so the rational model and IEEE-754 doubles agree on every rounding
  decision taken in a proof.
* `json.loads` is modelled by `jsonLoads`, a total recursive-descent parser
  for the JSON grammar restricted as follows: string escapes are limited to
  \" \\ / \n \t \r (no \u, \b, \f), and number syntax is sign/digits,
  optional fraction, optional exponent, without the leading-zero restriction.
  Every concrete response string appearing in a theorem lies inside this
  fragment and parses identically under Python's json module; no theorem
  relies on the behaviour of inputs outside the fragment beyond the fact that
  parse failure yields the documented stage defaults.
* `datetime.now().isoformat()` is modelled by an explicit `now : String`
  argument threaded into the memory update (the source samples the clock up
  to three times inside one update; no property proved here distinguishes
  those samples, so a single value is passed).  The real clock never returns
  the empty string, which is recorded as `now ≠ ""` where truthiness matters.
* The `From:`/`Subject:` regular-expression searches of `extract_and_parse`
  are kept abstract as an `Extract` record of pure functions: no claim under
  consideration depends on their internals, and the body assignment
  (`"body": raw`) is taken literally from the source.
* The external model calls (`llm.invoke`, `llm_creative.invoke`) are replaced
  by explicitly given response strings (a `Stub`), following the spec's own
  design note that the text-generation dependency is a one-method capability
  substitutable by a deterministic stub.
-/

/-! ### Python-value model: parsed JSON -/

/-- A Python value as produced by `json.loads`: None, bool, number (int and
float merged into `ℚ`), str, list, dict (insertion-ordered pair list). -/
inductive JVal where
  | null : JVal
  | bool : Bool → JVal
  | num : ℚ → JVal
  | str : String → JVal
  | arr : List JVal → JVal
  | obj : List (String × JVal) → JVal

/-! ### Character-level helpers shared with Python string semantics -/

/-- Whitespace skipped by Python's json lexer (space, tab, newline, return). -/
def skipWs : List Char → List Char
  | [] => []
  | c :: cs => if c = ' ' ∨ c = '\t' ∨ c = '\n' ∨ c = '\r' then skipWs cs else c :: cs

/-- Numeric value of a digit string. -/
def digitsVal (ds : List Char) : ℕ :=
  ds.foldl (fun a c => a * 10 + (c.toNat - 48)) 0

/-- Parse the exponent part of a JSON number (after the e/E), scaling `q`. -/
def parseExp (q : ℚ) (r : List Char) : Option (ℚ × List Char) :=
  let p := match r with
    | '-' :: rr => (true, rr)
    | '+' :: rr => (false, rr)
    | _ => (false, r)
  match (p.2).span (fun c => c.isDigit) with
  | ([], _) => none
  | (es, r2) =>
    let e : ℕ := digitsVal es
    some ((if p.1 then q / (10 : ℚ) ^ e else q * (10 : ℚ) ^ e), r2)

/-- Parse a JSON number: optional minus, digits, optional fraction, optional
exponent.  Returns the exact rational value and the remaining input. -/
def parseNum (cs : List Char) : Option (ℚ × List Char) :=
  let p := match cs with
    | '-' :: r => (true, r)
    | _ => (false, cs)
  match (p.2).span (fun c => c.isDigit) with
  | ([], _) => none
  | (ds, cs2) =>
    let ipart : ℚ := (digitsVal ds : ℚ)
    let frac : Option (ℚ × List Char) :=
      match cs2 with
      | '.' :: r =>
        match r.span (fun c => c.isDigit) with
        | ([], _) => none
        | (fs, r2) => some (ipart + (digitsVal fs : ℚ) / (10 : ℚ) ^ fs.length, r2)
      | _ => some (ipart, cs2)
    match frac with
    | none => none
    | some (q1, cs3) =>
      let withExp : Option (ℚ × List Char) :=
        match cs3 with
        | 'e' :: r => parseExp q1 r
        | 'E' :: r => parseExp q1 r
        | _ => some (q1, cs3)
      match withExp with
      | none => none
      | some (q2, cs4) => some ((if p.1 then -q2 else q2), cs4)

/-- Parse the body of a JSON string after the opening quote.  Escapes are
restricted to the fragment documented in the header. -/
def parseStrBody : List Char → List Char → Option (String × List Char)
  | [], _ => none
  | '"' :: rest, acc => some (String.mk acc.reverse, rest)
  | '\\' :: e :: rest, acc =>
    if e = '"' then parseStrBody rest ('"' :: acc)
    else if e = '\\' then parseStrBody rest ('\\' :: acc)
    else if e = '/' then parseStrBody rest ('/' :: acc)
    else if e = 'n' then parseStrBody rest ('\n' :: acc)
    else if e = 't' then parseStrBody rest ('\t' :: acc)
    else if e = 'r' then parseStrBody rest ('\r' :: acc)
    else none
  | c :: rest, acc => if c.toNat < 32 then none else parseStrBody rest (c :: acc)

/-- Expect the literal characters `l` at the head of `cs`. -/
def dropLit : List Char → List Char → Option (List Char)
  | [], cs => some cs
  | l :: ls, c :: cs => if c = l then dropLit ls cs else none
  | _ :: _, [] => none

/-- Replace-or-append on an insertion-ordered association list: Python dict
assignment keeps the original position and overwrites the value. -/
def pairsSet : List (String × JVal) → String → JVal → List (String × JVal)
  | [], k, v => [(k, v)]
  | (k', v') :: rest, k, v =>
    if k' = k then (k, v) :: rest else (k', v') :: pairsSet rest k v

/-- Fold raw members into Python-dict semantics (duplicate keys: last value,
first position), as `json.loads` builds its objects. -/
def pairsDedup (kvs : List (String × JVal)) : List (String × JVal) :=
  kvs.foldl (fun acc kv => pairsSet acc kv.1 kv.2) []

mutual

/-- Parse one JSON value from an already-whitespace-skipped input.  The fuel
argument makes the recursion structural; `jsonLoads` supplies enough fuel for
any input of the given length. -/
def parseValW : Nat → List Char → Option (JVal × List Char)
  | 0, _ => none
  | _, [] => none
  | f + 1, c :: rest =>
    if c = 'n' then (dropLit ['u', 'l', 'l'] rest).map (fun r => (JVal.null, r))
    else if c = 't' then (dropLit ['r', 'u', 'e'] rest).map (fun r => (JVal.bool true, r))
    else if c = 'f' then (dropLit ['a', 'l', 's', 'e'] rest).map (fun r => (JVal.bool false, r))
    else if c = '"' then (parseStrBody rest []).map (fun p => (JVal.str p.1, p.2))
    else if c = '[' then
      match skipWs rest with
      | ']' :: r2 => some (JVal.arr [], r2)
      | r2 => (parseItems f r2).map (fun p => (JVal.arr p.1, p.2))
    else if c = '\x7b' then
      match skipWs rest with
      | '\x7d' :: r2 => some (JVal.obj [], r2)
      | r2 => (parseMembers f r2).map (fun p => (JVal.obj (pairsDedup p.1), p.2))
    else if c.isDigit ∨ c = '-' then
      (parseNum (c :: rest)).map (fun p => (JVal.num p.1, p.2))
    else none

/-- Parse the comma-separated items of a non-empty JSON array, up to and
including the closing bracket. -/
def parseItems : Nat → List Char → Option (List JVal × List Char)
  | 0, _ => none
  | f + 1, cs =>
    match parseValW f (skipWs cs) with
    | none => none
    | some (v, r) =>
      match skipWs r with
      | ',' :: r2 =>
        match parseItems f r2 with
        | some (vs, r3) => some (v :: vs, r3)
        | none => none
      | ']' :: r2 => some ([v], r2)
      | _ => none

/-- Parse the members of a non-empty JSON object, up to and including the
closing brace. -/
def parseMembers : Nat → List Char → Option (List (String × JVal) × List Char)
  | 0, _ => none
  | f + 1, cs =>
    match skipWs cs with
    | '"' :: rest =>
      match parseStrBody rest [] with
      | none => none
      | some (k, r) =>
        match skipWs r with
        | ':' :: r2 =>
          match parseValW f (skipWs r2) with
          | none => none
          | some (v, r3) =>
            match skipWs r3 with
            | ',' :: r4 =>
              match parseMembers f r4 with
              | some (kvs, r5) => some ((k, v) :: kvs, r5)
              | none => none
            | '\x7d' :: r4 => some ([(k, v)], r4)
            | _ => none
        | _ => none
    | _ => none

end

/-- Model of `json.loads`: parse one value, then require only whitespace to
remain (Python raises on extra data, which the callers catch). -/
def jsonLoads (s : String) : Option JVal :=
  match parseValW (2 * s.length + 2) (skipWs s.data) with
  | some (v, rest) => if skipWs rest = [] then some v else none
  | none => none

/-! ### Python value semantics used by the pipeline code -/

/-- Python truthiness of a parsed JSON value (`not steps`). -/
def pyFalsy : JVal → Bool
  | JVal.null => true
  | JVal.bool b => !b
  | JVal.num q => q = 0
  | JVal.str s => s = ""
  | JVal.arr l => l.isEmpty
  | JVal.obj l => l.isEmpty

/-- Python `len`: defined for sized values, a TypeError (`none`) otherwise. -/
def pyLen : JVal → Option ℕ
  | JVal.str s => some s.length
  | JVal.arr l => some l.length
  | JVal.obj l => some l.length
  | _ => none

/-- Python `str()` of a parsed JSON value.  Container and numeric reprs are
not reproduced verbatim; the only property the code needs of them is that
they are not a null-like word (they begin with a bracket or a digit/sign),
which holds for these renderings as it does for Python's. -/
def pyStr : JVal → String
  | JVal.null => "None"
  | JVal.bool true => "True"
  | JVal.bool false => "False"
  | JVal.num q => toString q
  | JVal.str s => s
  | JVal.arr _ => "[...]"
  | JVal.obj _ => "\x7b...\x7d"

/-- ASCII whitespace as recognised by Python `str.strip()` (the unicode
whitespace Python also strips never occurs in the inputs considered). -/
def isPyWs (c : Char) : Bool :=
  c = ' ' || c = '\t' || c = '\n' || c = '\r' || c = '\x0b' || c = '\x0c'

/-- Python `str.strip()` (whitespace trim at both ends). -/
def pyStrip (s : String) : String :=
  String.mk (((s.data.dropWhile isPyWs).reverse.dropWhile isPyWs).reverse)

/-- Does `needle` occur at the head of `hay`? -/
def hasPrefixChars : List Char → List Char → Bool
  | [], _ => true
  | _ :: _, [] => false
  | a :: as, b :: bs => if a = b then hasPrefixChars as bs else false

/-- Does `needle` occur anywhere inside `hay`? -/
def hasInfixChars (needle : List Char) : List Char → Bool
  | [] => hasPrefixChars needle []
  | b :: bs => hasPrefixChars needle (b :: bs) || hasInfixChars needle bs

/-- Python `sub in s` substring test. -/
def containsSub (s sub : String) : Bool := hasInfixChars sub.data s.data

/-- Python `str.lower()` on the ASCII range (the inputs considered contain no
cased non-ASCII characters). -/
def charLower (c : Char) : Char :=
  if 'A' ≤ c ∧ c ≤ 'Z' then Char.ofNat (c.toNat + 32) else c

/-- Python `str.lower()`. -/
def pyLower (s : String) : String := String.mk (s.data.map charLower)

/-- Python `s.find(c)` for a single-character pattern: first index or -1. -/
def pyFind (s : String) (c : Char) : Int :=
  match s.data.findIdx? (fun x => x = c) with
  | some i => (i : Int)
  | none => -1

/-- Python `s.rfind(c)` for a single-character pattern: last index or -1. -/
def pyRfind (s : String) (c : Char) : Int :=
  match s.data.reverse.findIdx? (fun x => x = c) with
  | some j => (s.data.length : Int) - 1 - (j : Int)
  | none => -1

/-- Normalize one Python slice index: negative indices wrap by the length,
then everything clamps into [0, n]. -/
def pySliceIdx (n i : Int) : ℕ :=
  (if i < 0 then (if i + n < 0 then 0 else i + n) else (if n < i then n else i)).toNat

/-- Python slice `s[start:stop]` with negative-index wrapping and clamping. -/
def pySlice (s : String) (start stop : Int) : String :=
  let n : Int := (s.data.length : Int)
  String.mk ((s.data.take (pySliceIdx n stop)).drop (pySliceIdx n start))

/-- Python `float()` applied to a decoded JSON value: numbers pass through,
booleans coerce, numeric strings are parsed (whitespace-stripped), anything
else raises (`none`). -/
def pyFloat : JVal → Option ℚ
  | JVal.num q => some q
  | JVal.bool b => some (if b then 1 else 0)
  | JVal.str s =>
    match parseNum (pyStrip s).data with
    | some (q, rest) => if rest = [] then some q else none
    | none => none
  | _ => none

/-- Python dict read `kvs[k]`-style on decoded members: first (unique after
`pairsDedup`) binding for the key. -/
def jGet (kvs : List (String × JVal)) (k : String) : Option JVal :=
  (kvs.find? (fun p => p.1 == k)).map (fun p => p.2)

/-! ### Classification stages (src/main.py nodes 2-5)

Each stage is `json.loads` of the (stubbed) model response inside a
try/except that falls back to the stage's fixed default on any failure:
missing JSON, a non-object value (subscripting raises), a missing required
key (KeyError), or a `float()` coercion failure (ValueError). -/

/-- Fallback of `analyze_urgency`: level "medium", score 2.0, no triggers. -/
def urgencyDefault : JVal × ℚ × JVal := (JVal.str "medium", 2, JVal.arr [])

/-- `analyze_urgency` (src/main.py lines 99-111) on the raw response text. -/
def analyzeUrgency (resp : String) : JVal × ℚ × JVal :=
  match jsonLoads resp with
  | some (JVal.obj kvs) =>
    match jGet kvs "urgency_level", (jGet kvs "urgency_score").bind pyFloat with
    | some lvl, some score => (lvl, score, (jGet kvs "triggers").getD (JVal.arr []))
    | _, _ => urgencyDefault
  | _ => urgencyDefault

/-- Fallback of `detect_hidden_expectations`: empty list, score 0.0. -/
def expectationsDefault : JVal × ℚ := (JVal.arr [], 0)

/-- `detect_hidden_expectations` (src/main.py lines 114-122). -/
def detectHiddenExpectations (resp : String) : JVal × ℚ :=
  match jsonLoads resp with
  | some (JVal.obj kvs) =>
    match jGet kvs "expectations", (jGet kvs "expectation_score").bind pyFloat with
    | some ex, some sc => (ex, sc)
    | _, _ => expectationsDefault
  | _ => expectationsDefault

/-- Fallback of `assess_risk`: no flags, score 0.0, level "LOW". -/
def riskDefault : JVal × ℚ × JVal := (JVal.arr [], 0, JVal.str "LOW")

/-- `assess_risk` (src/main.py lines 125-134). -/
def assessRisk (resp : String) : JVal × ℚ × JVal :=
  match jsonLoads resp with
  | some (JVal.obj kvs) =>
    match jGet kvs "risk_flags", (jGet kvs "risk_score").bind pyFloat,
        jGet kvs "risk_level" with
    | some fl, some sc, some lvl => (fl, sc, lvl)
    | _, _, _ => riskDefault
  | _ => riskDefault

/-- Fallback of `classify_priority`: "MEDIUM", score 5.0. -/
def priorityDefault : JVal × ℚ := (JVal.str "MEDIUM", 5)

/-- `classify_priority` (src/main.py lines 137-145). -/
def classifyPriority (resp : String) : JVal × ℚ :=
  match jsonLoads resp with
  | some (JVal.obj kvs) =>
    match jGet kvs "priority", (jGet kvs "priority_score").bind pyFloat with
    | some pr, some sc => (pr, sc)
    | _, _ => priorityDefault
  | _ => priorityDefault

/-! ### Action planner (src/main.py node 6, lines 151-215) -/

/-- The markdown cleanup of `generate_action_plan`: when the (stripped)
response contains a code fence, slice from the first brace to one past the
last brace (Python `find`/`rfind` semantics, -1 on absence). -/
def stripFence (resp : String) : String :=
  if containsSub resp "```" then
    pySlice resp (pyFind resp '\x7b') (pyRfind resp '\x7d' + 1)
  else resp

/-- The final cleanup of the reply template: Python None and the null-like
strings "null"/"none"/"" (case-insensitive) are replaced by "". -/
def cleanupTemplate : JVal → JVal
  | JVal.null => JVal.str ""
  | t =>
    if pyLower (pyStr t) = "null" ∨ pyLower (pyStr t) = "none" ∨ pyLower (pyStr t) = ""
    then JVal.str "" else t

/-- One attempt of the retry loop of `generate_action_plan`: strip the
response, remove fence markup, `json.loads`, read `action_steps` (default
`[]`) and `response_template` (default None), raise on empty/unsized steps,
normalize the template.  `none` is the except-branch (any exception). -/
def attemptPlan (respRaw : String) : Option (JVal × JVal) :=
  let resp := stripFence (pyStrip respRaw)
  match jsonLoads resp with
  | some (JVal.obj kvs) =>
    let steps := (jGet kvs "action_steps").getD (JVal.arr [])
    let template := (jGet kvs "response_template").getD JVal.null
    if pyFalsy steps then none
    else
      match pyLen steps with
      | none => none
      | some 0 => none
      | some (_ + 1) => some (steps, cleanupTemplate template)
  | _ => none

/-- The hard-coded conservative plan returned when all three attempts fail. -/
def fallbackPlan : JVal × JVal :=
  (JVal.arr [JVal.str "Manually verify this email through official channels",
             JVal.str "Do not click any links or reply immediately",
             JVal.str "Treat with extreme caution"],
   JVal.str "")

/-- `generate_action_plan` under a stubbed model: three attempts on the three
stubbed responses, then the fallback.  The source builds a prompt from the
state (priority, urgency, risk, sender, subject) and an instruction that the
model return null for no-reply senders, but the prompt only reaches the
external model; no code path reads the sender after the response arrives. -/
def generateActionPlan (r0 r1 r2 : String) : JVal × JVal :=
  match attemptPlan r0 with
  | some out => out
  | none =>
    match attemptPlan r1 with
    | some out => out
    | none =>
      match attemptPlan r2 with
      | some out => out
      | none => fallbackPlan

/-! ### Sender memory (src/main.py lines 46-77) -/

/-- One entry of the `patterns` list appended per update. -/
structure PatternEntry where
  timestamp : String
  urgency : ℚ
  risk : ℚ
deriving DecidableEq

/-- The per-sender record stored by `SenderMemory`. -/
structure SenderRec where
  email_count : ℕ
  avg_urgency : ℚ
  avg_risk : ℚ
  patterns : List PatternEntry
  first_seen : Option String
  last_seen : Option String
deriving DecidableEq

/-- `SenderMemory.memory`: a Python dict, i.e. an insertion-ordered mapping
from sender string to record. -/
abbrev SenderMemory := List (String × SenderRec)

/-- `SenderMemory.__init__`: the store starts empty; this is the only way the
code ever obtains a store (there is no load from durable storage). -/
def emptyMemory : SenderMemory := []

/-- Python dict `.get`: the binding for the key, if any. -/
def dictGet (m : SenderMemory) (k : String) : Option SenderRec :=
  (m.find? (fun p => p.1 == k)).map (fun p => p.2)

/-- Python dict assignment `m[k] = v`: overwrite in place or append. -/
def dictSet : SenderMemory → String → SenderRec → SenderMemory
  | [], k, v => [(k, v)]
  | (k', v') :: rest, k, v =>
    if k' = k then (k, v) :: rest else (k', v') :: dictSet rest k v

/-- The zero default handed out for unseen senders by `get_sender_history`. -/
def defaultRec : SenderRec :=
  { email_count := 0, avg_urgency := 0, avg_risk := 0,
    patterns := [], first_seen := none, last_seen := none }

/-- `SenderMemory.get_sender_history`: stored record or the zero default. -/
def getSenderHistory (m : SenderMemory) (sender : String) : SenderRec :=
  (dictGet m sender).getD defaultRec

/-- Python `round(x, 2)` modelled over ℚ: round to the nearest multiple of
1/100 (Mathlib `round`).  Python uses round-half-even on the binary double;
every value rounded in a proof below is at least 1/1000 away from a midpoint,
where all the conventions coincide, and only `abs_sub_round` (valid for
either convention) is used in general arguments. -/
def round2 (q : ℚ) : ℚ := ((round (q * 100) : ℤ) : ℚ) / 100

/-- Python `a or b` for an optional string `a` (None and "" are falsy). -/
def pyOrStr (a : Option String) (b : String) : String :=
  match a with
  | some s => if s = "" then b else s
  | none => b

/-- `SenderMemory.update_sender`: recompute both running averages (note the
recomputation starts from the previously *rounded* stored average), append a
pattern entry, keep `first_seen` when truthy, refresh `last_seen`, store, and
return the stored record. -/
def updateSender (m : SenderMemory) (sender : String) (urgency_score risk_score : ℚ)
    (now : String) : SenderMemory × SenderRec :=
  let history := getSenderHistory m sender
  let count := history.email_count + 1
  let newAvgUrgency := (history.avg_urgency * history.email_count + urgency_score) / count
  let newAvgRisk := (history.avg_risk * history.email_count + risk_score) / count
  let stored : SenderRec :=
    { email_count := count,
      avg_urgency := round2 newAvgUrgency,
      avg_risk := round2 newAvgRisk,
      patterns := history.patterns ++ [⟨now, urgency_score, risk_score⟩],
      first_seen := some (pyOrStr history.first_seen now),
      last_seen := some now }
  (dictSet m sender stored, stored)

/-- Iterated updates for one sender (urgency score, risk score pairs), as the
memory node performs once per completed pipeline run. -/
def runUpdates (m : SenderMemory) (sender : String) (urs : List (ℚ × ℚ))
    (now : String) : SenderMemory :=
  urs.foldl (fun acc ur => (updateSender acc sender ur.1 ur.2 now).1) m

/-- Memories reachable by the code: built from the empty store of
`__init__` by `update_sender` calls with real (hence nonempty) ISO
timestamps. -/
inductive ReachableMem : SenderMemory → Prop
  | nil : ReachableMem emptyMemory
  | update (m : SenderMemory) (sender : String) (u r : ℚ) (now : String)
      (hm : ReachableMem m) (hnow : now ≠ "") :
      ReachableMem (updateSender m sender u r now).1

/-! ### Pipeline state and orchestration (src/main.py lines 25-43, 218-245) -/

/-- `EmailState`: the TypedDict threaded through the graph.  Fields produced
by the model keep their decoded-JSON type; `float()`-coerced scores are ℚ. -/
structure EmailState where
  raw_email : String
  sender : String
  subject : String
  body : String
  urgency_level : JVal
  urgency_score : ℚ
  urgency_triggers : JVal
  expectations : JVal
  expectation_score : ℚ
  risk_flags : JVal
  risk_score : ℚ
  risk_level : JVal
  priority : JVal
  priority_score : ℚ
  action_plan : JVal
  response_template : JVal
  sender_history : SenderRec
  execution_log : List String

/-- Placeholder values for the keys LangGraph leaves unset in the initial
state `\x7b"raw_email": email\x7d`; every field below is written by its node
before any later node reads it, so the placeholders never flow anywhere. -/
def initialState (raw : String) : EmailState :=
  { raw_email := raw, sender := "", subject := "", body := "",
    urgency_level := JVal.null, urgency_score := 0, urgency_triggers := JVal.null,
    expectations := JVal.null, expectation_score := 0,
    risk_flags := JVal.null, risk_score := 0, risk_level := JVal.null,
    priority := JVal.null, priority_score := 0,
    action_plan := JVal.null, response_template := JVal.null,
    sender_history := defaultRec, execution_log := [] }

/-- The two header searches of `extract_and_parse`, kept abstract as pure
functions (see the header comment). -/
structure Extract where
  sender : String → String
  subject : String → String

/-- The stubbed responses of the external model, one per invoking node (the
action planner may consume up to three). -/
structure Stub where
  urgency : String
  expectations : String
  risk : String
  priority : String
  action0 : String
  action1 : String
  action2 : String

/-- Node 1, `extract_and_parse`: sender and subject from the header searches,
and `"body": raw` - the body is the whole raw input. -/
def extractNode (ex : Extract) (st : EmailState) : EmailState :=
  { st with sender := ex.sender st.raw_email,
            subject := ex.subject st.raw_email,
            body := st.raw_email }

/-- Node 2 applied to the state. -/
def analyzeUrgencyNode (stub : Stub) (st : EmailState) : EmailState :=
  match analyzeUrgency stub.urgency with
  | (lvl, score, triggers) =>
    { st with urgency_level := lvl, urgency_score := score, urgency_triggers := triggers }

/-- Node 3 applied to the state. -/
def detectExpectationsNode (stub : Stub) (st : EmailState) : EmailState :=
  match detectHiddenExpectations stub.expectations with
  | (ex, sc) => { st with expectations := ex, expectation_score := sc }

/-- Node 4 applied to the state. -/
def assessRiskNode (stub : Stub) (st : EmailState) : EmailState :=
  match assessRisk stub.risk with
  | (fl, sc, lvl) => { st with risk_flags := fl, risk_score := sc, risk_level := lvl }

/-- Node 5 applied to the state. -/
def classifyPriorityNode (stub : Stub) (st : EmailState) : EmailState :=
  match classifyPriority stub.priority with
  | (pr, sc) => { st with priority := pr, priority_score := sc }

/-- Node 6 applied to the state.  The planner's output is a function of the
responses alone (the state reaches only the prompt, see
`generateActionPlan`). -/
def generateActionPlanNode (stub : Stub) (st : EmailState) : EmailState :=
  match generateActionPlan stub.action0 stub.action1 stub.action2 with
  | (plan, tmpl) => { st with action_plan := plan, response_template := tmpl }

/-- Node 7, `update_memory`: update the store with the sender and the two
scores (the risk *level* is not passed), then snapshot the history. -/
def updateMemoryNode (mem : SenderMemory) (now : String) (st : EmailState) :
    EmailState × SenderMemory :=
  let mem' := (updateSender mem st.sender st.urgency_score st.risk_score now).1
  ({ st with sender_history := getSenderHistory mem' st.sender }, mem')

/-- The compiled graph: the fixed linear path
extract → urgency → expectations → risk → priority → action_plan → memory. -/
def runPipeline (ex : Extract) (mem : SenderMemory) (stub : Stub)
    (raw : String) (now : String) : EmailState × SenderMemory :=
  updateMemoryNode mem now
    (generateActionPlanNode stub
      (classifyPriorityNode stub
        (assessRiskNode stub
          (detectExpectationsNode stub
            (analyzeUrgencyNode stub
              (extractNode ex (initialState raw)))))))

/-! ### Spec-side notions (used to state claims, clearly named as such) -/

/-- The spec's no-reply marker: a case-insensitive substring match of
"noreply" or "no-reply" on the sender address.  The source contains no such
check outside the prompt text. -/
def noReplyMarker (sender : String) : Bool :=
  containsSub (pyLower sender) "noreply" || containsSub (pyLower sender) "no-reply"

/-- Modelled from the spec: the body extraction the spec describes (split on
the first blank line, everything after is the body, whole input when no blank
line exists).  The source has no such split; this definition only states what
the claim asserts. -/
def afterFirstBlank : List Char → Option (List Char)
  | '\n' :: '\n' :: rest => some rest
  | _ :: rest => afterFirstBlank rest
  | [] => none

/-- Modelled from the spec: see `afterFirstBlank`. -/
def specBodyAfterBlank (raw : String) : String :=
  match afterFirstBlank raw.data with
  | some b => String.mk b
  | none => raw

/-- Erase the clock-derived data of a record (the pattern timestamps and the
first/last-seen stamps), keeping every aggregated statistic. -/
def eraseRecTimes (r : SenderRec) : SenderRec :=
  { r with patterns := r.patterns.map (fun p => { p with timestamp := "" }),
           first_seen := none, last_seen := none }

/-- Erase the clock-derived data inside a terminal state's history snapshot;
every other field is untouched. -/
def eraseHistTimes (st : EmailState) : EmailState :=
  { st with sender_history := eraseRecTimes st.sender_history }

/-! ### Concrete fixtures used by counterexamples and witnesses -/

/-- A state whose sender is a no-reply address (the third test email of the
source uses exactly this sender). -/
def noreplyState : EmailState :=
  { (initialState "") with sender := "no-reply@accounts.google.com" }

/-- A stub whose first planner response parses with a present, non-null reply
template. -/
def c2Stub : Stub :=
  { urgency := "", expectations := "", risk := "", priority := "",
    action0 := "\x7b\"action_steps\": [\"Check the security alert\"], \"response_template\": \"Thanks for checking.\"\x7d",
    action1 := "", action2 := "" }

/-- A pipeline state carrying a CRITICAL risk level into the memory node. -/
def c4StateCritical : EmailState :=
  { (initialState "r") with
    sender := "s@x.com", urgency_score := 2, risk_score := 8,
    risk_level := JVal.str "CRITICAL" }

/-- The same state with risk level LOW and all scores unchanged. -/
def c4StateLow : EmailState := { c4StateCritical with risk_level := JVal.str "LOW" }

/-- Five urgency scores (risk 0) whose rounded running mean drifts by 0.0082
from the exact mean - beyond the 0.005 half-width of rounding to 2 decimals.
Every intermediate rounding is at least 0.001 from a midpoint, so Python's
binary floats round identically. -/
def c5urs : List (ℚ × ℚ) := [(1, 0), (1.032, 0), (1.008, 0), (1.004, 0), (1.015, 0)]

/-- A raw email with a header block, a blank line, and a body. -/
def c6Raw : String := "From: a@b.c\nSubject: Hi\n\nHello body"

/-- Any concrete pair of header searches (the body claim is independent of
them). -/
def c6Extract : Extract := { sender := fun _ => "a@b.c", subject := fun _ => "Hi" }

/-- A well-formed classification response. -/
def c7InnerUrgency : String := "\x7b\"urgency_level\": \"high\", \"urgency_score\": 3\x7d"

/-- The same response wrapped in a markdown code fence. -/
def c7FencedUrgency : String := "```json\n" ++ c7InnerUrgency ++ "\n```"

/-- A fenced, otherwise well-formed action-planner response. -/
def c7FencedAction : String :=
  "```json\n\x7b\"action_steps\": [\"Review account activity\"], \"response_template\": \"Acknowledged.\"\x7d\n```"

/-! ### Shared lemmas about the store and the parser -/

lemma dictGet_dictSet_self (m : SenderMemory) (k : String) (v : SenderRec) :
    dictGet (dictSet m k v) k = some v := by
  induction m with
  | nil => simp [dictSet, dictGet]
  | cons p rest ih =>
    obtain ⟨k', v'⟩ := p
    by_cases h : k' = k
    · subst h
      simp [dictSet, dictGet]
    · simpa [dictSet, dictGet, h] using ih

lemma dictGet_dictSet_ne (m : SenderMemory) (k k' : String) (v : SenderRec)
    (h : k' ≠ k) : dictGet (dictSet m k v) k' = dictGet m k' := by
  induction m with
  | nil => simp [dictSet, dictGet, Ne.symm h]
  | cons p rest ih =>
    obtain ⟨k0, v0⟩ := p
    by_cases h0 : k0 = k
    · subst h0
      simp [dictSet, dictGet, Ne.symm h]
    · by_cases h1 : k0 = k'
      · subst h1
        simp [dictSet, dictGet, h0]
      · unfold dictGet at ih ⊢
        rw [dictSet, if_neg h0, List.find?_cons_of_neg, List.find?_cons_of_neg]
        · exact ih
        · simp [h1]
        · simp [h1]

lemma getSenderHistory_update_self (m : SenderMemory) (s : String) (u r : ℚ)
    (now : String) :
    getSenderHistory (updateSender m s u r now).1 s = (updateSender m s u r now).2 := by
  simp [updateSender, getSenderHistory, dictGet_dictSet_self]

lemma getSenderHistory_update_ne (m : SenderMemory) (s s' : String) (u r : ℚ)
    (now : String) (h : s' ≠ s) :
    getSenderHistory (updateSender m s u r now).1 s' = getSenderHistory m s' := by
  simp [updateSender, getSenderHistory, dictGet_dictSet_ne _ _ _ _ h]

lemma cleanupTemplate_ne_null (t : JVal) : cleanupTemplate t ≠ JVal.null := by
  cases t <;> simp [cleanupTemplate] <;> split <;> simp_all

lemma attemptPlan_template_ne_null (r : String) (steps tmpl : JVal)
    (h : attemptPlan r = some (steps, tmpl)) : tmpl ≠ JVal.null := by
  simp only [attemptPlan] at h
  split at h
  · split at h
    · exact absurd h (by simp)
    · split at h
      · exact absurd h (by simp)
      · exact absurd h (by simp)
      · simp only [Option.some.injEq, Prod.mk.injEq] at h
        rw [← h.2]
        exact cleanupTemplate_ne_null _
  · exact absurd h (by simp)

lemma parseValW_backtick (f : ℕ) (tail : List Char) :
    parseValW f ('\x60' :: tail) = none := by
  cases f with
  | zero => rfl
  | succ n => rfl

lemma jsonLoads_backtick (s : String) (h : (skipWs s.data).head? = some '\x60') :
    jsonLoads s = none := by
  unfold jsonLoads
  cases h2 : skipWs s.data with
  | nil => rw [h2] at h; exact absurd h (by simp)
  | cons c tail =>
    rw [h2] at h
    simp only [List.head?_cons, Option.some.injEq] at h
    subst h
    rw [parseValW_backtick]

lemma eraseRec_update (m : SenderMemory) (s : String) (u r : ℚ) (t t' : String) :
    eraseRecTimes (updateSender m s u r t).2 = eraseRecTimes (updateSender m s u r t').2 := by
  simp [updateSender, eraseRecTimes]

lemma abs_round2_sub_le (q : ℚ) : |round2 q - q| ≤ 1 / 200 := by
  unfold round2
  have h := abs_sub_round (q * 100)
  have h2 : ((round (q * 100) : ℤ) : ℚ) / 100 - q = -(q * 100 - (round (q * 100) : ℤ)) / 100 := by
    ring
  rw [h2, abs_div, abs_neg]
  have h100 : |(100 : ℚ)| = 100 := by norm_num
  rw [h100]
  linarith

lemma reachable_stored (m : SenderMemory) (hm : ReachableMem m) :
    ∀ s r0, dictGet m s = some r0 →
      1 ≤ r0.email_count ∧ ∃ f, r0.first_seen = some f ∧ f ≠ "" := by
  induction hm with
  | nil =>
    intro s r0 h
    exact absurd h (by simp [emptyMemory, dictGet])
  | update m sender u rr now hm hnow ih =>
    intro s r0 h
    by_cases hs : s = sender
    · subst hs
      have hset : (updateSender m s u rr now).1 = dictSet m s (updateSender m s u rr now).2 := rfl
      rw [hset, dictGet_dictSet_self] at h
      injection h with h
      subst h
      refine ⟨by simp [updateSender], pyOrStr (getSenderHistory m s).first_seen now,
        by simp [updateSender], ?_⟩
      unfold pyOrStr
      cases hf : (getSenderHistory m s).first_seen with
      | none => exact hnow
      | some f0 =>
        by_cases hf0 : f0 = ""
        · simpa [hf0] using hnow
        · simp [hf0]
    · have hset : (updateSender m sender u rr now).1
          = dictSet m sender (updateSender m sender u rr now).2 := rfl
      rw [hset, dictGet_dictSet_ne _ _ _ _ hs] at h
      exact ih s r0 h

/-- Error budget of the rounded running mean after updates c+1, ..., c+n:
the sum of j/200 over those update indices, in closed form. -/
def roundDriftBound (c n : ℕ) : ℚ := (n : ℚ) * (2 * (c : ℚ) + (n : ℚ) + 1) / 400

lemma roundDriftBound_step (c n : ℕ) :
    roundDriftBound c (n + 1) = ((c : ℚ) + 1) / 200 + roundDriftBound (c + 1) n := by
  unfold roundDriftBound
  push_cast
  ring

lemma rounded_mean_step (A1 AN a u S bPrev bStep N1 NF : ℚ)
    (h1 : |AN * NF - (A1 * N1 + S)| ≤ bPrev)
    (h2 : |A1 * N1 - (a + u)| ≤ bStep) :
    |AN * NF - (a + (u + S))| ≤ bPrev + bStep := by
  have h3 := abs_sub_le (AN * NF) (A1 * N1 + S) (a + (u + S))
  have h4 : A1 * N1 + S - (a + (u + S)) = A1 * N1 - (a + u) := by ring
  rw [h4] at h3
  linarith

lemma runUpdates_avg_invariant (s now : String) :
    ∀ (urs : List (ℚ × ℚ)) (m : SenderMemory),
      (getSenderHistory (runUpdates m s urs now) s).email_count
        = (getSenderHistory m s).email_count + urs.length ∧
      |(getSenderHistory (runUpdates m s urs now) s).avg_urgency
          * (((getSenderHistory m s).email_count + urs.length : ℕ) : ℚ)
        - ((getSenderHistory m s).avg_urgency * ((getSenderHistory m s).email_count : ℚ)
            + (urs.map Prod.fst).sum)|
        ≤ roundDriftBound (getSenderHistory m s).email_count urs.length := by
  intro urs
  induction urs with
  | nil =>
    intro m
    constructor
    · simp [runUpdates]
    · simp [runUpdates, roundDriftBound]
  | cons ur tl ih =>
    intro m
    obtain ⟨u, r⟩ := ur
    have hrun : runUpdates m s ((u, r) :: tl) now
        = runUpdates (updateSender m s u r now).1 s tl now := rfl
    obtain ⟨ihc, iha⟩ := ih (updateSender m s u r now).1
    have hrec : getSenderHistory (updateSender m s u r now).1 s = (updateSender m s u r now).2 :=
      getSenderHistory_update_self m s u r now
    have hcount' : (getSenderHistory (updateSender m s u r now).1 s).email_count
        = (getSenderHistory m s).email_count + 1 := by
      rw [hrec]
      simp [updateSender]
    have havg' : (getSenderHistory (updateSender m s u r now).1 s).avg_urgency
        = round2 (((getSenderHistory m s).avg_urgency * ((getSenderHistory m s).email_count : ℚ)
            + u) / (((getSenderHistory m s).email_count : ℚ) + 1)) := by
      rw [hrec]
      simp only [updateSender]
      push_cast
      ring_nf
    rw [hcount'] at ihc iha
    constructor
    · rw [hrun, ihc]
      simp
      omega
    · have hpos : (0 : ℚ) < ((getSenderHistory m s).email_count : ℚ) + 1 := by positivity
      have hkey : |(getSenderHistory (updateSender m s u r now).1 s).avg_urgency
            * (((getSenderHistory m s).email_count : ℚ) + 1)
          - ((getSenderHistory m s).avg_urgency * ((getSenderHistory m s).email_count : ℚ) + u)|
          ≤ (((getSenderHistory m s).email_count : ℚ) + 1) / 200 := by
        rw [havg']
        have h1 := abs_round2_sub_le
          (((getSenderHistory m s).avg_urgency * ((getSenderHistory m s).email_count : ℚ) + u)
            / (((getSenderHistory m s).email_count : ℚ) + 1))
        have h2 : round2 (((getSenderHistory m s).avg_urgency
                * ((getSenderHistory m s).email_count : ℚ) + u)
              / (((getSenderHistory m s).email_count : ℚ) + 1))
              * (((getSenderHistory m s).email_count : ℚ) + 1)
            - ((getSenderHistory m s).avg_urgency * ((getSenderHistory m s).email_count : ℚ) + u)
            = (round2 (((getSenderHistory m s).avg_urgency
                  * ((getSenderHistory m s).email_count : ℚ) + u)
                / (((getSenderHistory m s).email_count : ℚ) + 1))
              - ((getSenderHistory m s).avg_urgency * ((getSenderHistory m s).email_count : ℚ) + u)
                / (((getSenderHistory m s).email_count : ℚ) + 1))
              * (((getSenderHistory m s).email_count : ℚ) + 1) := by
          field_simp
        rw [h2, abs_mul, abs_of_pos hpos]
        calc |round2 (((getSenderHistory m s).avg_urgency
                  * ((getSenderHistory m s).email_count : ℚ) + u)
                / (((getSenderHistory m s).email_count : ℚ) + 1))
              - ((getSenderHistory m s).avg_urgency * ((getSenderHistory m s).email_count : ℚ) + u)
                / (((getSenderHistory m s).email_count : ℚ) + 1)|
              * (((getSenderHistory m s).email_count : ℚ) + 1)
            ≤ (1 / 200) * (((getSenderHistory m s).email_count : ℚ) + 1) :=
              mul_le_mul_of_nonneg_right h1 (le_of_lt hpos)
          _ = (((getSenderHistory m s).email_count : ℚ) + 1) / 200 := by ring
      rw [hrun]
      have hN : (getSenderHistory m s).email_count + ((u, r) :: tl).length
          = (getSenderHistory m s).email_count + 1 + tl.length := by
        simp
        omega
      rw [hN]
      simp only [List.map_cons, List.sum_cons]
      have hstep := rounded_mean_step
        ((getSenderHistory (updateSender m s u r now).1 s).avg_urgency)
        ((getSenderHistory (runUpdates (updateSender m s u r now).1 s tl now) s).avg_urgency)
        ((getSenderHistory m s).avg_urgency * ((getSenderHistory m s).email_count : ℚ))
        u ((tl.map Prod.fst).sum)
        (roundDriftBound ((getSenderHistory m s).email_count + 1) tl.length)
        ((((getSenderHistory m s).email_count : ℚ) + 1) / 200)
        ((((getSenderHistory m s).email_count : ℚ) + 1))
        ((((getSenderHistory m s).email_count + 1 + tl.length : ℕ)) : ℚ)
        ?_ ?_
      · have hb := roundDriftBound_step (getSenderHistory m s).email_count tl.length
        have hlen : ((u, r) :: tl).length = tl.length + 1 := by simp
        rw [hlen, hb]
        linarith
      · have hcast : ((((getSenderHistory m s).email_count + 1 : ℕ)) : ℚ)
            = (((getSenderHistory m s).email_count : ℚ) + 1) := by push_cast; ring
        rw [← hcast]
        exact iha
      · exact hkey

/-! ### Claim theorems -/

/-- C1 (counterexample): the claimed write-through persistence round-trip
fails.  `SenderMemory.__init__` is the only way the code obtains a store and
it always starts empty (there is no load operation and no durable storage in
the source), so after an update in one store instance, a freshly constructed
store - the only possible "fresh load" - returns the zero default rather
than the previously stored record (whose count is 1, not 0). -/
theorem c1_counterexample :
    (getSenderHistory (updateSender emptyMemory "alice@example.com" 3 1 "t0").1
        "alice@example.com").email_count = 1 ∧
    getSenderHistory emptyMemory "alice@example.com" = defaultRec ∧
    defaultRec.email_count = 0 :=
  ⟨rfl, rfl, rfl⟩

/-- C1 (amended): sender memory is in-process only.  Within one store
instance, `update_sender` followed by `get_sender_history` returns the
stored record; a fresh store (`__init__`) holds the zero default for every
sender, because no persistence exists. -/
theorem c1_memory_in_process_only (m : SenderMemory) (s : String) (u r : ℚ)
    (now : String) :
    getSenderHistory (updateSender m s u r now).1 s = (updateSender m s u r now).2 ∧
    getSenderHistory emptyMemory s = defaultRec :=
  ⟨getSenderHistory_update_self m s u r now, rfl⟩

/-- C3 (counterexample): sender keys are not case-insensitive.  Updating
`Foo@Bar.com` and then reading `foo@bar.com` returns the zero default (count
0), not the record just stored (count 1): `update_sender` never lower-cases
the sender before keying the dict. -/
theorem c3_counterexample :
    getSenderHistory (updateSender emptyMemory "Foo@Bar.com" 2 1 "t0").1 "foo@bar.com"
      = defaultRec ∧
    (getSenderHistory (updateSender emptyMemory "Foo@Bar.com" 2 1 "t0").1
        "Foo@Bar.com").email_count = 1 ∧
    defaultRec.email_count = 0 :=
  ⟨rfl, rfl, rfl⟩

/-- C3 (amended): sender keys are exact-match case-sensitive.  An update is
visible under the identical sender string, and leaves the record of every
other string - case variants included - unchanged. -/
theorem c3_keys_case_sensitive (m : SenderMemory) (s s' : String) (u r : ℚ)
    (now : String) (h : s' ≠ s) :
    getSenderHistory (updateSender m s u r now).1 s' = getSenderHistory m s' ∧
    getSenderHistory (updateSender m s u r now).1 s = (updateSender m s u r now).2 :=
  ⟨getSenderHistory_update_ne m s s' u r now h, getSenderHistory_update_self m s u r now⟩

/-- C3 (witness). -/
theorem c3_keys_case_sensitive_witness :
    getSenderHistory (updateSender emptyMemory "Foo@Bar.com" 2 1 "t0").1 "foo@bar.com"
      = getSenderHistory emptyMemory "foo@bar.com" ∧
    getSenderHistory (updateSender emptyMemory "Foo@Bar.com" 2 1 "t0").1 "Foo@Bar.com"
      = (updateSender emptyMemory "Foo@Bar.com" 2 1 "t0").2 :=
  c3_keys_case_sensitive emptyMemory "Foo@Bar.com" "foo@bar.com" 2 1 "t0" (by decide)

/-- C4 (counterexample): no stored quantity can be the claimed highRiskCount.
The memory node passes only the numeric scores to `update_sender` (the risk
level is never read), so the record stored after a CRITICAL-level update is
identical to the one stored after a LOW-level update with the same scores;
a counter that increments by exactly 1 on CRITICAL and stays unchanged on
LOW would have to differ between the two, which is impossible. -/
theorem c4_counterexample :
    ¬ ∃ hrc : SenderRec → ℤ,
      (hrc ((updateMemoryNode emptyMemory "t0" c4StateCritical).1.sender_history)
          = hrc (getSenderHistory emptyMemory "s@x.com") + 1 ∧
       hrc ((updateMemoryNode emptyMemory "t0" c4StateLow).1.sender_history)
          = hrc (getSenderHistory emptyMemory "s@x.com")) := by
  rintro ⟨hrc, h1, h2⟩
  have he : (updateMemoryNode emptyMemory "t0" c4StateCritical).1.sender_history
      = (updateMemoryNode emptyMemory "t0" c4StateLow).1.sender_history := rfl
  rw [he] at h1
  omega

/-- C4 (amended): updates do not track the risk level at all.  The memory
update and the stored history snapshot are invariant under changing the
state's risk level, and each update increments the sender's email count by
exactly 1; risk enters the record only through the `avg_risk` running mean
of numeric scores. -/
theorem c4_no_risk_level_dependence (mem : SenderMemory) (st : EmailState)
    (lvl : JVal) (now : String) :
    (updateMemoryNode mem now { st with risk_level := lvl }).2
      = (updateMemoryNode mem now st).2 ∧
    (updateMemoryNode mem now { st with risk_level := lvl }).1.sender_history
      = (updateMemoryNode mem now st).1.sender_history ∧
    (updateMemoryNode mem now st).1.sender_history.email_count
      = (getSenderHistory mem st.sender).email_count + 1 := by
  refine ⟨rfl, rfl, ?_⟩
  show (getSenderHistory (updateSender mem st.sender st.urgency_score st.risk_score now).1
      st.sender).email_count = (getSenderHistory mem st.sender).email_count + 1
  rw [getSenderHistory_update_self]
  simp [updateSender]

/-- C6 (counterexample): the extractor does not split on the first blank
line.  On a raw email with a header block, a blank line and the body
"Hello body", the code's body is the entire raw input, not the spec's
after-the-blank-line text. -/
theorem c6_counterexample :
    (extractNode c6Extract (initialState c6Raw)).body = c6Raw ∧
    specBodyAfterBlank c6Raw = "Hello body" ∧
    c6Raw ≠ "Hello body" :=
  ⟨rfl, rfl, by decide⟩

/-- C6 (amended): the extractor sets the body to the whole raw input,
headers included, for every input - the `"body": raw` assignment performs no
split at all. -/
theorem c6_body_is_whole_input (ex : Extract) (st : EmailState) :
    (extractNode ex st).body = st.raw_email ∧
    (extractNode ex st).raw_email = st.raw_email :=
  ⟨rfl, rfl⟩

/-- C2 (counterexample): no-reply suppression is not enforced by the stage.
With the sender set to the source's own no-reply test address and a stubbed
model response carrying a present reply template, the action-plan node
returns that template - neither the empty string (the code's representation
of an absent reply) nor null - because no code path inspects the sender
after the response arrives; the "must be null" rule lives only in the prompt
sent to the model. -/
theorem c2_counterexample :
    noReplyMarker noreplyState.sender = true ∧
    (generateActionPlanNode c2Stub noreplyState).response_template
      = JVal.str "Thanks for checking." ∧
    JVal.str "Thanks for checking." ≠ JVal.str "" ∧
    JVal.str "Thanks for checking." ≠ JVal.null := by
  refine ⟨rfl, rfl, ?_, ?_⟩
  · intro h
    injection h with h2
    exact absurd h2 (by decide)
  · intro h
    exact JVal.noConfusion h

/-- C2 (amended): the planner's output is a function of the model responses
alone.  The stage performs no sender-based suppression of the reply
template: its entire output is independent of the pipeline state (the state
reaches only the prompt), so for a no-reply sender the template is absent
exactly when the model responses make it so. -/
theorem c2_planner_output_state_independent (stub : Stub) (st st' : EmailState) :
    (generateActionPlanNode stub st).response_template
      = (generateActionPlanNode stub st').response_template ∧
    (generateActionPlanNode stub st).action_plan
      = (generateActionPlanNode stub st').action_plan := by
  rcases hg : generateActionPlan stub.action0 stub.action1 stub.action2 with ⟨plan, tmpl⟩
  simp [generateActionPlanNode, hg]

/-- C9: the planner's reply template is never Python None.  For every triple
of stubbed responses, the returned `response_template` differs from null:
the success path normalizes None and the null-like strings to the empty
string, and the retry-exhaustion path returns the fixed fallback plan, whose
template is the empty string. -/
theorem c9_template_never_none (r0 r1 r2 : String) :
    (generateActionPlan r0 r1 r2).2 ≠ JVal.null ∧
    (attemptPlan r0 = none → attemptPlan r1 = none → attemptPlan r2 = none →
      generateActionPlan r0 r1 r2 = fallbackPlan) := by
  constructor
  · unfold generateActionPlan
    cases h0 : attemptPlan r0 with
    | some out =>
      obtain ⟨stp, t⟩ := out
      exact attemptPlan_template_ne_null r0 stp t h0
    | none =>
      cases h1 : attemptPlan r1 with
      | some out =>
        obtain ⟨stp, t⟩ := out
        exact attemptPlan_template_ne_null r1 stp t h1
      | none =>
        cases h2 : attemptPlan r2 with
        | some out =>
          obtain ⟨stp, t⟩ := out
          exact attemptPlan_template_ne_null r2 stp t h2
        | none =>
          simp [fallbackPlan]
  · intro h0 h1 h2
    unfold generateActionPlan
    rw [h0, h1, h2]

/-- C9 (witness): at three unparseable responses the planner returns the
fallback plan, whose template is the empty string, not None. -/
theorem c9_template_never_none_witness :
    (generateActionPlan "x" "x" "x").2 ≠ JVal.null ∧
    generateActionPlan "x" "x" "x" = fallbackPlan :=
  ⟨(c9_template_never_none "x" "x" "x").1,
   (c9_template_never_none "x" "x" "x").2 rfl rfl rfl⟩

/-- C7 (counterexample): the classification stages do not strip code fences.
The urgency stage parses the unfenced response to (high, 3, []) but returns
its fixed failure default (medium, 2.0, []) on the very same response
wrapped in a markdown code fence, because it calls `json.loads` on the raw
text and the backtick makes parsing fail. -/
theorem c7_counterexample :
    c7FencedUrgency = "```json\n" ++ c7InnerUrgency ++ "\n```" ∧
    analyzeUrgency c7InnerUrgency = (JVal.str "high", 3, JVal.arr []) ∧
    analyzeUrgency c7FencedUrgency = urgencyDefault ∧
    (JVal.str "high", (3 : ℚ), JVal.arr []) ≠ urgencyDefault := by
  refine ⟨rfl, rfl, rfl, ?_⟩
  intro h
  simp only [urgencyDefault, Prod.mk.injEq] at h
  obtain ⟨h1, -⟩ := h
  injection h1 with h1
  exact absurd h1 (by decide)

/-- C7 (amended): only the action planner strips fence markup.  Every
response whose first non-whitespace character is a backtick fails JSON
parsing, so each of the four classification stages returns its fixed
default on any fenced response; the action planner, by contrast, slices
from the first brace to the last brace before parsing and succeeds on a
fenced, otherwise well-formed response. -/
theorem c7_only_planner_strips_fences :
    (∀ resp : String, (skipWs resp.data).head? = some '\x60' →
        analyzeUrgency resp = urgencyDefault ∧
        detectHiddenExpectations resp = expectationsDefault ∧
        assessRisk resp = riskDefault ∧
        classifyPriority resp = priorityDefault) ∧
    attemptPlan c7FencedAction
      = some (JVal.arr [JVal.str "Review account activity"], JVal.str "Acknowledged.") := by
  constructor
  · intro resp h
    have hn := jsonLoads_backtick resp h
    exact ⟨by simp [analyzeUrgency, hn], by simp [detectHiddenExpectations, hn],
      by simp [assessRisk, hn], by simp [classifyPriority, hn]⟩
  · rfl

/-- C7 (witness): the fenced-response defaults at a concrete fenced string,
and the planner's fence handling at a concrete fenced response. -/
theorem c7_only_planner_strips_fences_witness :
    analyzeUrgency "```x" = urgencyDefault ∧
    detectHiddenExpectations "```x" = expectationsDefault ∧
    assessRisk "```x" = riskDefault ∧
    classifyPriority "```x" = priorityDefault ∧
    attemptPlan c7FencedAction
      = some (JVal.arr [JVal.str "Review account activity"], JVal.str "Acknowledged.") :=
  ⟨(c7_only_planner_strips_fences.1 "```x" rfl).1,
   (c7_only_planner_strips_fences.1 "```x" rfl).2.1,
   (c7_only_planner_strips_fences.1 "```x" rfl).2.2.1,
   (c7_only_planner_strips_fences.1 "```x" rfl).2.2.2,
   c7_only_planner_strips_fences.2⟩

/-- C10: `first_seen` is write-once.  In any memory reachable by the code
(built from the empty store by updates carrying real, nonempty timestamps),
a sender whose record exists (count at least 1) keeps its `first_seen`
unchanged across every further update: the code's `history["first_seen"] or
now` keeps the stored truthy value. -/
theorem c10_first_seen_stable (m : SenderMemory) (s : String) (u r : ℚ)
    (now : String) (hm : ReachableMem m)
    (hc : 1 ≤ (getSenderHistory m s).email_count) :
    (getSenderHistory (updateSender m s u r now).1 s).first_seen
      = (getSenderHistory m s).first_seen := by
  rw [getSenderHistory_update_self]
  have hdict : ∃ r0, dictGet m s = some r0 := by
    cases h : dictGet m s with
    | none =>
      exfalso
      unfold getSenderHistory at hc
      rw [h] at hc
      simp [defaultRec] at hc
    | some r0 => exact ⟨r0, rfl⟩
  obtain ⟨r0, hr0⟩ := hdict
  obtain ⟨-, f, hf, hfne⟩ := reachable_stored m hm s r0 hr0
  have hhist : getSenderHistory m s = r0 := by simp [getSenderHistory, hr0]
  simp [updateSender, hhist, hf, pyOrStr, hfne]

/-- C10 (witness): after a first update stamps first_seen with T1, a second
update at T2 leaves it unchanged. -/
theorem c10_first_seen_stable_witness :
    (getSenderHistory (updateSender (updateSender emptyMemory "a@b.c" 1 2 "T1").1
        "a@b.c" 3 4 "T2").1 "a@b.c").first_seen
      = (getSenderHistory (updateSender emptyMemory "a@b.c" 1 2 "T1").1 "a@b.c").first_seen :=
  c10_first_seen_stable (updateSender emptyMemory "a@b.c" 1 2 "T1").1 "a@b.c" 3 4 "T2"
    (ReachableMem.update emptyMemory "a@b.c" 1 2 "T1" ReachableMem.nil (by decide))
    (by decide)

lemma eraseHist_updateMemoryNode (mem : SenderMemory) (t t' : String) (st : EmailState) :
    eraseHistTimes (updateMemoryNode mem t st).1
      = eraseHistTimes (updateMemoryNode mem t' st).1 := by
  simp only [updateMemoryNode, eraseHistTimes, getSenderHistory_update_self]
  rw [eraseRec_update mem st.sender st.urgency_score st.risk_score t t']

/-- C8: with the external model stubbed, the pipeline is deterministic up to
the clock.  Two runs of the full graph on the same raw email, same stubbed
responses, and same starting memory, at different times, produce terminal
states that agree on every field once the clock-derived timestamps inside
`sender_history` (pattern timestamps, first/last seen) are erased; no other
field depends on the clock at all. -/
theorem c8_deterministic_modulo_timestamps (ex : Extract) (mem : SenderMemory)
    (stub : Stub) (raw t t' : String) :
    eraseHistTimes (runPipeline ex mem stub raw t).1
      = eraseHistTimes (runPipeline ex mem stub raw t').1 := by
  unfold runPipeline
  exact eraseHist_updateMemoryNode mem t t' _

/-- C5 (counterexample): the incrementally maintained mean does not agree
with the exact mean within rounding to 2 decimals.  After the five urgency
scores 1, 1.032, 1.008, 1.004, 1.015 the stored average is 1.02, while the
exact mean is 1.0118: the gap 0.0082 exceeds the 0.005 half-width of the
final rounding, and rounding the exact mean gives 1.01, not the stored
1.02 - the per-update rounding of the running mean compounds. -/
theorem c5_counterexample :
    (getSenderHistory (runUpdates emptyMemory "bob@x.com" c5urs "t0") "bob@x.com").avg_urgency
      = 51 / 50 ∧
    (c5urs.map Prod.fst).sum / (c5urs.length : ℚ) = 5059 / 5000 ∧
    ¬ (|(51 : ℚ) / 50 - 5059 / 5000| ≤ 1 / 200) ∧
    round2 (5059 / 5000) = 101 / 100 ∧
    (51 : ℚ) / 50 ≠ 101 / 100 := by
  refine ⟨?_, ?_, ?_, ?_, ?_⟩
  · norm_num [c5urs, runUpdates, updateSender, getSenderHistory, dictGet, dictSet,
      defaultRec, emptyMemory, round2, round_eq, List.find?]
  · norm_num [c5urs]
  · norm_num [abs_le]
  · norm_num [round2, round_eq]
  · norm_num

/-- C5 (amended): the stored average is the rounded running mean, whose
distance from the exact arithmetic mean after N updates is bounded by
(N+1)/400 - each of the N roundings contributes at most 1/200 weighted by
its position - but, as the counterexample shows, it is not bounded by the
1/200 half-width of a single rounding. -/
theorem c5_avg_drift_bound (s now : String) (urs : List (ℚ × ℚ)) (h : urs ≠ []) :
    |(getSenderHistory (runUpdates emptyMemory s urs now) s).avg_urgency
        - (urs.map Prod.fst).sum / (urs.length : ℚ)|
      ≤ ((urs.length : ℚ) + 1) / 400 := by
  obtain ⟨hc, ha⟩ := runUpdates_avg_invariant s now urs emptyMemory
  have h0 : getSenderHistory emptyMemory s = defaultRec := rfl
  rw [h0] at ha
  simp only [defaultRec] at ha
  norm_num at ha
  have hn : 0 < urs.length := List.length_pos.mpr h
  have hnq : (0 : ℚ) < (urs.length : ℚ) := by exact_mod_cast hn
  have hb : roundDriftBound 0 urs.length
      = (urs.length : ℚ) * ((urs.length : ℚ) + 1) / 400 := by
    unfold roundDriftBound
    push_cast
    ring
  rw [hb] at ha
  have heq : (getSenderHistory (runUpdates emptyMemory s urs now) s).avg_urgency
      - (urs.map Prod.fst).sum / (urs.length : ℚ)
      = ((getSenderHistory (runUpdates emptyMemory s urs now) s).avg_urgency
          * (urs.length : ℚ) - (urs.map Prod.fst).sum) / (urs.length : ℚ) := by
    field_simp
  rw [heq, abs_div, abs_of_pos hnq, div_le_iff₀ hnq]
  calc |(getSenderHistory (runUpdates emptyMemory s urs now) s).avg_urgency
        * (urs.length : ℚ) - (urs.map Prod.fst).sum|
      ≤ (urs.length : ℚ) * ((urs.length : ℚ) + 1) / 400 := ha
    _ = ((urs.length : ℚ) + 1) / 400 * (urs.length : ℚ) := by ring

/-- C5 (witness): a single update stores round2 of the score itself, within
(1+1)/400 of the exact mean. -/
theorem c5_avg_drift_bound_witness :
    |(getSenderHistory (runUpdates emptyMemory "a@b.c" [((1 : ℚ), (0 : ℚ))] "t0") "a@b.c").avg_urgency
        - ([((1 : ℚ), (0 : ℚ))].map Prod.fst).sum / (([((1 : ℚ), (0 : ℚ))].length : ℕ) : ℚ)|
      ≤ ((([((1 : ℚ), (0 : ℚ))].length : ℕ) : ℚ) + 1) / 400 :=
  c5_avg_drift_bound "a@b.c" "t0" [((1 : ℚ), (0 : ℚ))] (by simp)
